import Mathlib

/-!
Shallow embedding of `swf/models/workflow.py` (simple-workflow): the
`WorkflowType` and `WorkflowExecution` models and their remote-facing
operations. The external Connection Provider is modelled by outcome values
passed explicitly to each operation; raised Python exceptions become
`Except` errors.
-/

/-- A Python-level attribute value as it appears in the diff comparisons:
a string, a float timestamp (modelled as a rational), `None`, or a list of
strings (tag lists). -/
inductive Value where
  | str (s : String)
  | num (q : Rat)
  | vnone
  | strList (l : List String)
deriving DecidableEq, Repr

/-- Converts an optional string attribute to the `Value` it holds in Python
(`None` when absent). -/
def optVal : Option String → Value
  | some s => Value.str s
  | none => Value.vnone

/-- Python truthiness-based `a or b` on optional strings: `None` and the
empty string fall through to `b`. -/
def pyOr (a b : Option String) : Option String :=
  match a with
  | some s => if s = "" then b else some s
  | none => b

/-- Python truthiness-based `a or b` when the fallback is a plain string. -/
def pyOrStr (a : Option String) (b : String) : String :=
  match a with
  | some s => if s = "" then b else s
  | none => b

/-- The domain object; only its `name` is read by this module. -/
structure Domain where
  name : String
deriving DecidableEq, Repr

/-- `_POLICIES` / `CHILD_POLICIES` from the source: the legal child policy
values. -/
def CHILD_POLICIES : List String := ["TERMINATE", "REQUEST_CANCEL", "ABANDON"]

/-- Errors raised by the module: `DoesNotExistError`, `AlreadyExistsError`,
`ResponseError` (from `swf.exceptions`) and Python's `ValueError` (raised by
the `child_policy` setter). -/
inductive SWFError where
  | doesNotExist (message : String)
  | alreadyExists (message : String)
  | responseError (message : String)
  | valueError (message : String)
deriving DecidableEq, Repr

/-- Outcome of a Connection Provider describe call: either a description
record or an `SWFResponseError` with an error code and a body message. -/
inductive DescribeOutcome (α : Type) where
  | ok (d : α)
  | fault (error_code message : String)
deriving DecidableEq, Repr

/-- Outcome of `register_workflow_type`: success, the dedicated
`SWFTypeAlreadyExistsError`, or a generic `SWFResponseError`. -/
inductive RegisterOutcome where
  | ok
  | typeAlreadyExists (message : String)
  | fault (error_code message : String)
deriving DecidableEq, Repr

/-- Outcome of `deprecate_workflow_type`: success or an `SWFResponseError`. -/
inductive DeprecateOutcome where
  | ok
  | fault (error_code message : String)
deriving DecidableEq, Repr

/-- Modelled from the spec: the `Diff` namedtuple of `swf.models.base`
(that file is not under src/): a structured triple
`(field_name, local_value, remote_value)`. -/
structure Diff where
  field_name : String
  local_value : Value
  remote_value : Value
deriving DecidableEq, Repr

/-- `WorkflowType`. `child_policy` is the `_child_policy` backing field of
the validated property: `none` when the setter never ran (the getter's
lazy default), `some p` after a successful assignment. -/
structure WorkflowType where
  domain : Domain
  name : String
  version : String
  status : String
  creation_date : Rat
  deprecation_date : Rat
  task_list : Option String
  execution_timeout : String
  decision_tasks_timeout : String
  description : Option String
  child_policy : Option String
deriving DecidableEq, Repr

/-- The `child_policy` property setter: validates membership in
`CHILD_POLICIES`, raising `ValueError` otherwise; no remote outcome is
consulted. -/
def WorkflowType.set_child_policy (wt : WorkflowType) (policy : String) :
    Except SWFError WorkflowType :=
  if policy ∈ CHILD_POLICIES then
    Except.ok { wt with child_policy := some policy }
  else
    Except.error (SWFError.valueError ("invalid child policy value: " ++ policy))

/-- `WorkflowType.__init__`: stores the plain attributes, then explicitly
runs the `child_policy` setter to validate the given value. -/
def WorkflowType.init (domain : Domain) (name version status : String)
    (creation_date deprecation_date : Rat) (task_list : Option String)
    (child_policy : String) (execution_timeout decision_tasks_timeout : String)
    (description : Option String) : Except SWFError WorkflowType :=
  WorkflowType.set_child_policy
    { domain, name, version, status, creation_date, deprecation_date,
      task_list, execution_timeout, decision_tasks_timeout, description,
      child_policy := none }
    child_policy

/-- The compared fields of a `describe_workflow_type` response:
`typeInfo` (name, version, status, creationDate, deprecationDate,
description) and `configuration` (defaultTaskList.name, defaultChildPolicy,
defaultExecutionStartToCloseTimeout, defaultTaskStartToCloseTimeout). -/
structure WTDescription where
  name : Value
  version : Value
  status : Value
  creationDate : Value
  deprecationDate : Value
  defaultTaskList : Value
  defaultChildPolicy : Value
  defaultExecutionStartToCloseTimeout : Value
  defaultTaskStartToCloseTimeout : Value
  description : Value
deriving DecidableEq, Repr

/-- The `attributes_comparison` list built by `WorkflowType._diff`, in
source order (the ninth record's field name carries the source's spelling
`decision_tasks_timout`). -/
def wtAttributesComparison (wt : WorkflowType) (d : WTDescription) : List Diff :=
  [ ⟨"name", Value.str wt.name, d.name⟩,
    ⟨"version", Value.str wt.version, d.version⟩,
    ⟨"status", Value.str wt.status, d.status⟩,
    ⟨"creation_date", Value.num wt.creation_date, d.creationDate⟩,
    ⟨"deprecation_date", Value.num wt.deprecation_date, d.deprecationDate⟩,
    ⟨"task_list", optVal wt.task_list, d.defaultTaskList⟩,
    ⟨"child_policy", optVal wt.child_policy, d.defaultChildPolicy⟩,
    ⟨"execution_timeout", Value.str wt.execution_timeout, d.defaultExecutionStartToCloseTimeout⟩,
    ⟨"decision_tasks_timout", Value.str wt.decision_tasks_timeout, d.defaultTaskStartToCloseTimeout⟩,
    ⟨"description", optVal wt.description, d.description⟩ ]

/-- `WorkflowType._diff`: an `UnknownResourceFault` becomes
`DoesNotExistError`, any other fault becomes `ResponseError`, and on success
the comparison list is filtered to the records whose local and remote
values differ. -/
def WorkflowType._diff (wt : WorkflowType)
    (outcome : DescribeOutcome WTDescription) : Except SWFError (List Diff) :=
  match outcome with
  | DescribeOutcome.fault code msg =>
      if code = "UnknownResourceFault" then
        Except.error (SWFError.doesNotExist "Remote Domain does not exist")
      else
        Except.error (SWFError.responseError msg)
  | DescribeOutcome.ok d =>
      Except.ok ((wtAttributesComparison wt d).filter
        (fun data => data.local_value != data.remote_value))

/-- `WorkflowType.exists`: `True` on a successful describe, `False` on an
`UnknownResourceFault`, and `ResponseError` on any other fault. -/
def WorkflowType.exists (_wt : WorkflowType)
    (outcome : DescribeOutcome WTDescription) : Except SWFError Bool :=
  match outcome with
  | DescribeOutcome.fault code msg =>
      if code ≠ "UnknownResourceFault" then
        Except.error (SWFError.responseError msg)
      else
        Except.ok false
  | DescribeOutcome.ok _ => Except.ok true

/-- Modelled from the spec: `BaseModel.is_synced` (swf/models/base.py is not
under src/) is true iff `diff()` yields an empty changeset; a diff failure
propagates. -/
def WorkflowType.is_synced (wt : WorkflowType)
    (outcome : DescribeOutcome WTDescription) : Except SWFError Bool :=
  (wt._diff outcome).map List.isEmpty

/-- `WorkflowType.save`: `SWFTypeAlreadyExistsError` becomes
`AlreadyExistsError`; of the generic `SWFResponseError`s only
`UnknownResourceFault` is re-raised (as `DoesNotExistError`) — the
`except` block has no trailing raise, so every other fault is caught and
the method returns normally. -/
def WorkflowType.save (wt : WorkflowType) (outcome : RegisterOutcome) :
    Except SWFError Unit :=
  match outcome with
  | RegisterOutcome.ok => Except.ok ()
  | RegisterOutcome.typeAlreadyExists _ =>
      Except.error (SWFError.alreadyExists
        ("Workflow type " ++ wt.name ++ " already exists amazon-side"))
  | RegisterOutcome.fault code msg =>
      if code = "UnknownResourceFault" then
        Except.error (SWFError.doesNotExist msg)
      else
        Except.ok ()

/-- `WorkflowType.delete`: `UnknownResourceFault` and `TypeDeprecatedFault`
both become `DoesNotExistError`; the method body assigns no attribute, so
the post-state entity is returned unchanged (other fault codes are caught
without a trailing raise and the method returns normally). -/
def WorkflowType.delete (wt : WorkflowType) (outcome : DeprecateOutcome) :
    Except SWFError WorkflowType :=
  match outcome with
  | DeprecateOutcome.ok => Except.ok wt
  | DeprecateOutcome.fault code msg =>
      if code = "UnknownResourceFault" ∨ code = "TypeDeprecatedFault" then
        Except.error (SWFError.doesNotExist msg)
      else
        Except.ok wt

/-- The argument record passed to the Connection Provider's
`start_workflow_execution`. -/
structure StartExecutionRequest where
  domain : String
  workflow_id : String
  name : String
  version : String
  task_list : Option String
  child_policy : Option String
  execution_start_to_close_timeout : Option String
  input : Option String
  tag_list : Option (List String)
  task_start_to_close_timeout : Option String
deriving DecidableEq, Repr

/-- `WorkflowExecution` with the attributes `__init__` actually stores
(the `workflow_type` parameter is accepted but never assigned to `self`). -/
structure WorkflowExecution where
  domain : Domain
  workflow_id : String
  run_id : Option String
  status : String
  task_list : Option String
  child_policy : Option String
  execution_timeout : Option String
  input : Option String
  tag_list : List String
  decision_tasks_timeout : Option String
deriving DecidableEq, Repr

def WorkflowExecution.STATUS_OPEN : String := "OPEN"

def WorkflowExecution.STATUS_CLOSED : String := "CLOSED"

def WorkflowExecution.CLOSE_STATUS_COMPLETED : String := "COMPLETED"

def WorkflowExecution.CLOSE_STATUS_FAILED : String := "FAILED"

def WorkflowExecution.CLOSE_STATUS_CANCELED : String := "CANCELED"

def WorkflowExecution.CLOSE_STATUS_TERMINATED : String := "TERMINATED"

def WorkflowExecution.CLOSE_STATUS_CONTINUED_AS_NEW : String :=
  "CLOSE_STATUS_CONTINUED_AS_NEW"

def WorkflowExecution.CLOSE_TIMED_OUT : String := "TIMED_OUT"

/-- `WorkflowExecution.__init__`: stores every attribute verbatim
(`tag_list or []` for the tag list); the `workflow_type` parameter is
accepted positionally but not stored, and no attribute is validated. -/
def WorkflowExecution.init (domain : Domain) (_workflow_type : String)
    (workflow_id : String) (run_id : Option String) (status : String)
    (task_list child_policy execution_timeout input : Option String)
    (tag_list : Option (List String)) (decision_tasks_timeout : Option String) :
    WorkflowExecution :=
  { domain, workflow_id, run_id, status, task_list, child_policy,
    execution_timeout, input, tag_list := tag_list.getD [],
    decision_tasks_timeout }

/-- Plain attribute assignment `execution.child_policy = v`: no setter, no
validation. -/
def WorkflowExecution.set_child_policy (we : WorkflowExecution)
    (v : Option String) : WorkflowExecution :=
  { we with child_policy := v }

/-- `WorkflowType.start_execution`: defaults `workflow_id` to
`name-version-int(time.time())`, defaults `task_list` and `child_policy`
from the type via Python `or`, sends the request, and builds the result via
the source's call `WorkflowExecution(self.domain, workflow_id, run_id)` —
positional against `__init__(self, domain, workflow_type, workflow_id,
run_id=None, ...)`, so `workflow_id` lands in the `workflow_type` slot,
`run_id` lands in the `workflow_id` slot and every later parameter keeps
its default. `now` is `int(time.time())` and `runId` the provider's
response field. -/
def WorkflowType.start_execution (wt : WorkflowType)
    (workflow_id task_list child_policy execution_timeout input : Option String)
    (tag_list : Option (List String)) (decision_tasks_timeout : Option String)
    (now : Nat) (runId : String) : StartExecutionRequest × WorkflowExecution :=
  let workflow_id := pyOrStr workflow_id
    (wt.name ++ "-" ++ wt.version ++ "-" ++ toString now)
  let task_list := pyOr task_list wt.task_list
  let child_policy := pyOr child_policy wt.child_policy
  let request : StartExecutionRequest :=
    { domain := wt.domain.name, workflow_id, name := wt.name,
      version := wt.version, task_list, child_policy,
      execution_start_to_close_timeout := execution_timeout, input,
      tag_list, task_start_to_close_timeout := decision_tasks_timeout }
  (request,
   WorkflowExecution.init wt.domain workflow_id runId none
     WorkflowExecution.STATUS_OPEN none none none none none none)

/-- The compared fields of a `describe_workflow_execution` response:
`executionInfo` (execution.workflowId, execution.runId, executionStatus,
tagList) and `executionConfiguration` (taskList.name, childPolicy,
executionStartToCloseTimeout, taskStartToCloseTimeout). -/
structure WEDescription where
  workflowId : Value
  runId : Value
  executionStatus : Value
  taskList : Value
  childPolicy : Value
  executionStartToCloseTimeout : Value
  tagList : Value
  taskStartToCloseTimeout : Value
deriving DecidableEq, Repr

/-- The `attributes_comparison` list built by `WorkflowExecution._diff`,
in source order. -/
def weAttributesComparison (we : WorkflowExecution) (d : WEDescription) :
    List Diff :=
  [ ⟨"workflow_id", Value.str we.workflow_id, d.workflowId⟩,
    ⟨"run_id", optVal we.run_id, d.runId⟩,
    ⟨"status", Value.str we.status, d.executionStatus⟩,
    ⟨"task_list", optVal we.task_list, d.taskList⟩,
    ⟨"child_policy", optVal we.child_policy, d.childPolicy⟩,
    ⟨"execution_timeout", optVal we.execution_timeout, d.executionStartToCloseTimeout⟩,
    ⟨"tag_list", Value.strList we.tag_list, d.tagList⟩,
    ⟨"decision_tasks_timeout", optVal we.decision_tasks_timeout, d.taskStartToCloseTimeout⟩ ]

/-- `WorkflowExecution._diff`: same fault translation as the type's diff,
then the filtered comparison list. -/
def WorkflowExecution._diff (we : WorkflowExecution)
    (outcome : DescribeOutcome WEDescription) : Except SWFError (List Diff) :=
  match outcome with
  | DescribeOutcome.fault code msg =>
      if code = "UnknownResourceFault" then
        Except.error (SWFError.doesNotExist "Remote Domain does not exist")
      else
        Except.error (SWFError.responseError msg)
  | DescribeOutcome.ok d =>
      Except.ok ((weAttributesComparison we d).filter
        (fun data => data.local_value != data.remote_value))

/-- `WorkflowExecution.exists`: `True` on a successful describe, `False` on
an `UnknownResourceFault`, `ResponseError` otherwise. -/
def WorkflowExecution.exists (_we : WorkflowExecution)
    (outcome : DescribeOutcome WEDescription) : Except SWFError Bool :=
  match outcome with
  | DescribeOutcome.fault code msg =>
      if code ≠ "UnknownResourceFault" then
        Except.error (SWFError.responseError msg)
      else
        Except.ok false
  | DescribeOutcome.ok _ => Except.ok true

/-- Modelled from the spec: `is_synced` for executions, true iff `diff()`
yields an empty changeset. -/
def WorkflowExecution.is_synced (we : WorkflowExecution)
    (outcome : DescribeOutcome WEDescription) : Except SWFError Bool :=
  (we._diff outcome).map List.isEmpty

/-- The scenario Workflow Type: domain "orders", name "ProcessOrder",
version "1.0", task_list "default", child_policy TERMINATE. -/
def ordersWT : WorkflowType :=
  { domain := ⟨"orders"⟩, name := "ProcessOrder", version := "1.0",
    status := "REGISTERED", creation_date := 0, deprecation_date := 0,
    task_list := some "default", execution_timeout := "300",
    decision_tasks_timeout := "300", description := none,
    child_policy := some "TERMINATE" }

/-- A sample execution handle used as a concrete instance in witnesses. -/
def sampleWE : WorkflowExecution :=
  WorkflowExecution.init ⟨"orders"⟩ "ProcessOrder" "order-42" (some "run-1")
    WorkflowExecution.STATUS_OPEN (some "default") (some "TERMINATE")
    (some "3600") none (some ["tag1"]) (some "30")

/-- A remote type description whose every compared field matches `ordersWT`. -/
def wtMatchDescription : WTDescription :=
  ⟨Value.str "ProcessOrder", Value.str "1.0", Value.str "REGISTERED",
   Value.num 0, Value.num 0, Value.str "default", Value.str "TERMINATE",
   Value.str "300", Value.str "300", Value.vnone⟩

/-- `wtMatchDescription` with exactly one compared field differing. -/
def wtOneDiffDescription : WTDescription :=
  { wtMatchDescription with status := Value.str "DEPRECATED" }

/-- A remote execution description whose every compared field matches
`sampleWE`. -/
def weMatchDescription : WEDescription :=
  ⟨Value.str "order-42", Value.str "run-1", Value.str "OPEN",
   Value.str "default", Value.str "TERMINATE", Value.str "3600",
   Value.strList ["tag1"], Value.str "30"⟩

/-- `weMatchDescription` with exactly one compared field differing. -/
def weOneDiffDescription : WEDescription :=
  { weMatchDescription with executionStatus := Value.str "CLOSED" }

/-- Helper: a list whose `countP` is one filters to exactly the one
satisfying element. -/
theorem filter_eq_singleton_of_countP_eq_one {α : Type} (p : α → Bool) :
    ∀ l : List α, l.countP p = 1 →
      ∃ a, a ∈ l ∧ p a = true ∧ l.filter p = [a]
  | [], h => by simp [List.countP_nil] at h
  | a :: l, h => by
    by_cases hpa : p a = true
    · have hl : l.countP p = 0 := by
        rw [List.countP_cons, if_pos hpa] at h
        omega
      have hfilt : l.filter p = [] := by
        rw [List.filter_eq_nil_iff]
        intro b hb
        exact (List.countP_eq_zero.mp hl) b hb
      exact ⟨a, List.mem_cons_self a l, hpa,
        by rw [List.filter_cons_of_pos hpa, hfilt]⟩
    · have hl : l.countP p = 1 := by
        rw [List.countP_cons, if_neg hpa, Nat.add_zero] at h
        exact h
      obtain ⟨b, hb, hpb, hf⟩ := filter_eq_singleton_of_countP_eq_one p l hl
      exact ⟨b, List.mem_cons_of_mem _ hb, hpb,
        by rw [List.filter_cons_of_neg (by simp [hpa]), hf]⟩

/-- Claim C1: the source's claim is that `start_execution` returns an
execution populated with the remote-assigned run_id and the effective
field values; evaluating the code on the scenario type shows the
positional constructor call instead leaves `run_id`, `task_list` and
`child_policy` unset and stores the run id in `workflow_id`, even though
the request itself carried the effective values. -/
theorem start_execution_mispopulated_result :
    (ordersWT.start_execution none none none none none none none
      1700000000 "run-abc123").1.task_list = some "default" ∧
    (ordersWT.start_execution none none none none none none none
      1700000000 "run-abc123").1.child_policy = some "TERMINATE" ∧
    (ordersWT.start_execution none none none none none none none
      1700000000 "run-abc123").2.run_id = none ∧
    (ordersWT.start_execution none none none none none none none
      1700000000 "run-abc123").2.workflow_id = "run-abc123" ∧
    (ordersWT.start_execution none none none none none none none
      1700000000 "run-abc123").2.task_list = none ∧
    (ordersWT.start_execution none none none none none none none
      1700000000 "run-abc123").2.child_policy = none ∧
    (ordersWT.start_execution none none none none none none none
      1700000000 "run-abc123").2.workflow_id ≠
      (ordersWT.start_execution none none none none none none none
        1700000000 "run-abc123").1.workflow_id := by
  refine ⟨rfl, rfl, rfl, rfl, rfl, rfl, by decide⟩

/-- Claim C2: evaluating `save` on the scenario type shows a generic
remote fault (here a throttling fault) is caught and the method returns
normally — the fault is silently swallowed instead of surfacing as a
`ResponseError` — while the already-exists and unknown-resource faults are
translated as documented. -/
theorem save_swallows_generic_fault :
    ordersWT.save (RegisterOutcome.fault "ThrottlingException" "Rate exceeded") =
      Except.ok () ∧
    ordersWT.save (RegisterOutcome.fault "UnknownResourceFault" "Unknown domain: orders") =
      Except.error (SWFError.doesNotExist "Unknown domain: orders") ∧
    ordersWT.save (RegisterOutcome.typeAlreadyExists "already exists") =
      Except.error (SWFError.alreadyExists
        "Workflow type ProcessOrder already exists amazon-side") := by
  refine ⟨rfl, rfl, rfl⟩

/-- Claim C3: `delete` translates both the unknown-resource fault and the
already-deprecated fault into the not-found error kind
(`DoesNotExistError`), and whenever it returns normally the entity — in
particular its `status` field — is unchanged. -/
theorem delete_both_faults_not_found (wt wt' : WorkflowType) (msg : String)
    (o : DeprecateOutcome) :
    wt.delete (DeprecateOutcome.fault "UnknownResourceFault" msg) =
      Except.error (SWFError.doesNotExist msg) ∧
    wt.delete (DeprecateOutcome.fault "TypeDeprecatedFault" msg) =
      Except.error (SWFError.doesNotExist msg) ∧
    (wt.delete o = Except.ok wt' → wt' = wt ∧ wt'.status = wt.status) := by
  refine ⟨rfl, by simp [WorkflowType.delete], ?_⟩
  intro h
  cases o with
  | ok =>
      cases h
      exact ⟨rfl, rfl⟩
  | fault code m =>
      simp only [WorkflowType.delete] at h
      split at h
      · cases h
      · cases h
        exact ⟨rfl, rfl⟩

/-- Witness for C3 at concrete inputs. -/
theorem delete_both_faults_not_found_witness :
    ordersWT.delete (DeprecateOutcome.fault "UnknownResourceFault" "Unknown type") =
      Except.error (SWFError.doesNotExist "Unknown type") ∧
    ordersWT.delete (DeprecateOutcome.fault "TypeDeprecatedFault" "Type deprecated") =
      Except.error (SWFError.doesNotExist "Type deprecated") ∧
    (ordersWT = ordersWT ∧ ordersWT.status = ordersWT.status) := by
  have h1 := delete_both_faults_not_found ordersWT ordersWT "Unknown type"
    DeprecateOutcome.ok
  have h2 := delete_both_faults_not_found ordersWT ordersWT "Type deprecated"
    DeprecateOutcome.ok
  exact ⟨h1.1, h2.2.1, h1.2.2 rfl⟩

/-- Claim C4: for both entities, `exists` is true on a successful
describe, false on an unknown-resource fault (not escalated), and any
other fault escalates as a `ResponseError`. -/
theorem exists_accessor_semantics (wt : WorkflowType) (we : WorkflowExecution)
    (d : WTDescription) (e : WEDescription) (code msg : String) :
    wt.exists (DescribeOutcome.ok d) = Except.ok true ∧
    we.exists (DescribeOutcome.ok e) = Except.ok true ∧
    wt.exists (DescribeOutcome.fault "UnknownResourceFault" msg) = Except.ok false ∧
    we.exists (DescribeOutcome.fault "UnknownResourceFault" msg) = Except.ok false ∧
    (code ≠ "UnknownResourceFault" →
      wt.exists (DescribeOutcome.fault code msg) =
        Except.error (SWFError.responseError msg) ∧
      we.exists (DescribeOutcome.fault code msg) =
        Except.error (SWFError.responseError msg)) := by
  refine ⟨rfl, rfl, by simp [WorkflowType.exists],
    by simp [WorkflowExecution.exists], fun h => ?_⟩
  exact ⟨by simp [WorkflowType.exists, h], by simp [WorkflowExecution.exists, h]⟩

/-- Witness for C4 at concrete inputs, with a throttling fault as the
other-fault case. -/
theorem exists_accessor_semantics_witness :
    ordersWT.exists (DescribeOutcome.ok wtMatchDescription) = Except.ok true ∧
    sampleWE.exists (DescribeOutcome.ok weMatchDescription) = Except.ok true ∧
    ordersWT.exists (DescribeOutcome.fault "UnknownResourceFault" "gone") =
      Except.ok false ∧
    sampleWE.exists (DescribeOutcome.fault "UnknownResourceFault" "gone") =
      Except.ok false ∧
    ordersWT.exists (DescribeOutcome.fault "ThrottlingException" "Rate exceeded") =
      Except.error (SWFError.responseError "Rate exceeded") ∧
    sampleWE.exists (DescribeOutcome.fault "ThrottlingException" "Rate exceeded") =
      Except.error (SWFError.responseError "Rate exceeded") := by
  have h := exists_accessor_semantics ordersWT sampleWE wtMatchDescription
    weMatchDescription "ThrottlingException" "Rate exceeded"
  exact ⟨h.1, h.2.1, h.2.2.1, h.2.2.2.1,
    (h.2.2.2.2 (by decide)).1, (h.2.2.2.2 (by decide)).2⟩

/-- Claim C5: for both entities, a diff against a missing remote entity
fails with the not-found error kind (so it never returns a changeset, empty
or otherwise), and any other remote fault during diff surfaces as a
`ResponseError`. -/
theorem diff_not_found_semantics (wt : WorkflowType) (we : WorkflowExecution)
    (code msg : String) :
    wt._diff (DescribeOutcome.fault "UnknownResourceFault" msg) =
      Except.error (SWFError.doesNotExist "Remote Domain does not exist") ∧
    we._diff (DescribeOutcome.fault "UnknownResourceFault" msg) =
      Except.error (SWFError.doesNotExist "Remote Domain does not exist") ∧
    (∀ changeset : List Diff,
      wt._diff (DescribeOutcome.fault "UnknownResourceFault" msg) ≠
        Except.ok changeset) ∧
    (∀ changeset : List Diff,
      we._diff (DescribeOutcome.fault "UnknownResourceFault" msg) ≠
        Except.ok changeset) ∧
    (code ≠ "UnknownResourceFault" →
      wt._diff (DescribeOutcome.fault code msg) =
        Except.error (SWFError.responseError msg) ∧
      we._diff (DescribeOutcome.fault code msg) =
        Except.error (SWFError.responseError msg)) := by
  refine ⟨rfl, rfl, ?_, ?_, fun h => ?_⟩
  · intro changeset h
    cases h
  · intro changeset h
    cases h
  · exact ⟨by simp [WorkflowType._diff, h], by simp [WorkflowExecution._diff, h]⟩

/-- Witness for C5 at concrete inputs. -/
theorem diff_not_found_semantics_witness :
    ordersWT._diff (DescribeOutcome.fault "UnknownResourceFault" "gone") =
      Except.error (SWFError.doesNotExist "Remote Domain does not exist") ∧
    sampleWE._diff (DescribeOutcome.fault "UnknownResourceFault" "gone") =
      Except.error (SWFError.doesNotExist "Remote Domain does not exist") ∧
    ordersWT._diff (DescribeOutcome.fault "UnknownResourceFault" "gone") ≠
      Except.ok [] ∧
    sampleWE._diff (DescribeOutcome.fault "UnknownResourceFault" "gone") ≠
      Except.ok [] ∧
    ordersWT._diff (DescribeOutcome.fault "ThrottlingException" "Rate exceeded") =
      Except.error (SWFError.responseError "Rate exceeded") ∧
    sampleWE._diff (DescribeOutcome.fault "ThrottlingException" "Rate exceeded") =
      Except.error (SWFError.responseError "Rate exceeded") := by
  have h := diff_not_found_semantics ordersWT sampleWE "ThrottlingException"
    "Rate exceeded"
  exact ⟨h.1, h.2.1, h.2.2.1 [], h.2.2.2.1 [],
    (h.2.2.2.2 (by decide)).1, (h.2.2.2.2 (by decide)).2⟩

/-- Claim C6: for both entities, the changeset produced by a successful
diff is the ordered comparison list (one record per compared attribute,
each carrying the field name and the local and remote values) filtered to
the records whose local and remote values differ; when every attribute
matches the changeset is empty and `is_synced` holds, and when exactly one
attribute differs the changeset is exactly that one record. -/
theorem diff_changeset_structure (wt : WorkflowType) (we : WorkflowExecution)
    (d : WTDescription) (e : WEDescription) :
    wt._diff (DescribeOutcome.ok d) =
      Except.ok ((wtAttributesComparison wt d).filter
        (fun r => r.local_value != r.remote_value)) ∧
    we._diff (DescribeOutcome.ok e) =
      Except.ok ((weAttributesComparison we e).filter
        (fun r => r.local_value != r.remote_value)) ∧
    ((∀ r ∈ wtAttributesComparison wt d, r.local_value = r.remote_value) →
      wt._diff (DescribeOutcome.ok d) = Except.ok [] ∧
      wt.is_synced (DescribeOutcome.ok d) = Except.ok true) ∧
    ((∀ r ∈ weAttributesComparison we e, r.local_value = r.remote_value) →
      we._diff (DescribeOutcome.ok e) = Except.ok [] ∧
      we.is_synced (DescribeOutcome.ok e) = Except.ok true) ∧
    ((wtAttributesComparison wt d).countP
        (fun r => r.local_value != r.remote_value) = 1 →
      ∃ r, r ∈ wtAttributesComparison wt d ∧ r.local_value ≠ r.remote_value ∧
        wt._diff (DescribeOutcome.ok d) = Except.ok [r]) ∧
    ((weAttributesComparison we e).countP
        (fun r => r.local_value != r.remote_value) = 1 →
      ∃ r, r ∈ weAttributesComparison we e ∧ r.local_value ≠ r.remote_value ∧
        we._diff (DescribeOutcome.ok e) = Except.ok [r]) := by
  refine ⟨rfl, rfl, ?_, ?_, ?_, ?_⟩
  · intro hall
    have hfilt : (wtAttributesComparison wt d).filter
        (fun r => r.local_value != r.remote_value) = [] := by
      rw [List.filter_eq_nil_iff]
      intro r hr
      simp [bne_iff_ne, hall r hr]
    exact ⟨by simp [WorkflowType._diff, hfilt],
      by simp [WorkflowType.is_synced, WorkflowType._diff, hfilt, Except.map]⟩
  · intro hall
    have hfilt : (weAttributesComparison we e).filter
        (fun r => r.local_value != r.remote_value) = [] := by
      rw [List.filter_eq_nil_iff]
      intro r hr
      simp [bne_iff_ne, hall r hr]
    exact ⟨by simp [WorkflowExecution._diff, hfilt],
      by simp [WorkflowExecution.is_synced, WorkflowExecution._diff, hfilt, Except.map]⟩
  · intro hone
    obtain ⟨r, hr, hpr, hf⟩ := filter_eq_singleton_of_countP_eq_one _ _ hone
    exact ⟨r, hr, by simpa [bne_iff_ne] using hpr,
      by simp [WorkflowType._diff, hf]⟩
  · intro hone
    obtain ⟨r, hr, hpr, hf⟩ := filter_eq_singleton_of_countP_eq_one _ _ hone
    exact ⟨r, hr, by simpa [bne_iff_ne] using hpr,
      by simp [WorkflowExecution._diff, hf]⟩

/-- Witness for C6: a fully matching description gives an empty changeset
and synced entities, and a single differing attribute gives a singleton
changeset, for both entities. -/
theorem diff_changeset_structure_witness :
    ordersWT._diff (DescribeOutcome.ok wtMatchDescription) = Except.ok [] ∧
    ordersWT.is_synced (DescribeOutcome.ok wtMatchDescription) = Except.ok true ∧
    sampleWE._diff (DescribeOutcome.ok weMatchDescription) = Except.ok [] ∧
    sampleWE.is_synced (DescribeOutcome.ok weMatchDescription) = Except.ok true ∧
    (∃ r, r ∈ wtAttributesComparison ordersWT wtOneDiffDescription ∧
      r.local_value ≠ r.remote_value ∧
      ordersWT._diff (DescribeOutcome.ok wtOneDiffDescription) = Except.ok [r]) ∧
    (∃ r, r ∈ weAttributesComparison sampleWE weOneDiffDescription ∧
      r.local_value ≠ r.remote_value ∧
      sampleWE._diff (DescribeOutcome.ok weOneDiffDescription) = Except.ok [r]) := by
  have h1 := diff_changeset_structure ordersWT sampleWE wtMatchDescription
    weMatchDescription
  have h2 := diff_changeset_structure ordersWT sampleWE wtOneDiffDescription
    weOneDiffDescription
  exact ⟨(h1.2.2.1 (by decide)).1, (h1.2.2.1 (by decide)).2,
    (h1.2.2.2.1 (by decide)).1, (h1.2.2.2.1 (by decide)).2,
    h2.2.2.2.2.1 (by decide), h2.2.2.2.2.2 (by decide)⟩

/-- Claim C7: assigning a child policy inside the legal set — at
construction or through the setter — succeeds and reads back the same
value, while any other value fails with the local `ValueError`
(`InvalidChildPolicy`): the setter consults no remote outcome at all. -/
theorem child_policy_validation (dom : Domain) (n v st : String)
    (cd dd : Rat) (tl : Option String) (p : String) (et dt : String)
    (desc : Option String) (wt : WorkflowType) :
    (p ∈ CHILD_POLICIES →
      (WorkflowType.init dom n v st cd dd tl p et dt desc).map
        WorkflowType.child_policy = Except.ok (some p) ∧
      (wt.set_child_policy p).map WorkflowType.child_policy =
        Except.ok (some p)) ∧
    (p ∉ CHILD_POLICIES →
      WorkflowType.init dom n v st cd dd tl p et dt desc =
        Except.error (SWFError.valueError ("invalid child policy value: " ++ p)) ∧
      wt.set_child_policy p =
        Except.error (SWFError.valueError ("invalid child policy value: " ++ p))) := by
  constructor
  · intro hmem
    constructor
    · simp [WorkflowType.init, WorkflowType.set_child_policy, hmem, Except.map]
    · simp [WorkflowType.set_child_policy, hmem, Except.map]
  · intro hmem
    constructor
    · simp [WorkflowType.init, WorkflowType.set_child_policy, hmem, Except.map]
    · simp [WorkflowType.set_child_policy, hmem, Except.map]

/-- Witness for C7: readback of each legal policy and rejection of a value
outside the enum. -/
theorem child_policy_validation_witness :
    (WorkflowType.init ⟨"orders"⟩ "ProcessOrder" "1.0" "REGISTERED" 0 0
      (some "default") "TERMINATE" "300" "300" none).map
      WorkflowType.child_policy = Except.ok (some "TERMINATE") ∧
    (ordersWT.set_child_policy "REQUEST_CANCEL").map
      WorkflowType.child_policy = Except.ok (some "REQUEST_CANCEL") ∧
    (ordersWT.set_child_policy "ABANDON").map
      WorkflowType.child_policy = Except.ok (some "ABANDON") ∧
    WorkflowType.init ⟨"orders"⟩ "ProcessOrder" "1.0" "REGISTERED" 0 0
      (some "default") "KILL_ALL" "300" "300" none =
      Except.error (SWFError.valueError
        ("invalid child policy value: " ++ "KILL_ALL")) ∧
    ordersWT.set_child_policy "KILL_ALL" =
      Except.error (SWFError.valueError
        ("invalid child policy value: " ++ "KILL_ALL")) := by
  have hT := child_policy_validation ⟨"orders"⟩ "ProcessOrder" "1.0"
    "REGISTERED" 0 0 (some "default") "TERMINATE" "300" "300" none ordersWT
  have hR := child_policy_validation ⟨"orders"⟩ "ProcessOrder" "1.0"
    "REGISTERED" 0 0 (some "default") "REQUEST_CANCEL" "300" "300" none ordersWT
  have hA := child_policy_validation ⟨"orders"⟩ "ProcessOrder" "1.0"
    "REGISTERED" 0 0 (some "default") "ABANDON" "300" "300" none ordersWT
  have hK := child_policy_validation ⟨"orders"⟩ "ProcessOrder" "1.0"
    "REGISTERED" 0 0 (some "default") "KILL_ALL" "300" "300" none ordersWT
  exact ⟨(hT.1 (by decide)).1, (hR.1 (by decide)).2, (hA.1 (by decide)).2,
    (hK.2 (by decide)).1, (hK.2 (by decide)).2⟩

/-- Claim C8: with no caller overrides, the request sent to the Connection
Provider carries the type's configured `task_list` and `child_policy`, a
`workflow_id` synthesized as name-version-timestamp, and the remaining
fields exactly as given, including unset ones. -/
theorem start_execution_effective_request (wt : WorkflowType)
    (eto inp : Option String) (tags : Option (List String))
    (dtt : Option String) (now : Nat) (runId : String) :
    ((wt.start_execution none none none eto inp tags dtt now runId).1.workflow_id
      = wt.name ++ "-" ++ wt.version ++ "-" ++ toString now) ∧
    (wt.start_execution none none none eto inp tags dtt now runId).1.task_list
      = wt.task_list ∧
    (wt.start_execution none none none eto inp tags dtt now runId).1.child_policy
      = wt.child_policy ∧
    (wt.start_execution none none none eto inp tags dtt now
      runId).1.execution_start_to_close_timeout = eto ∧
    (wt.start_execution none none none eto inp tags dtt now runId).1.input
      = inp ∧
    (wt.start_execution none none none eto inp tags dtt now runId).1.tag_list
      = tags ∧
    (wt.start_execution none none none eto inp tags dtt now
      runId).1.task_start_to_close_timeout = dtt :=
  ⟨rfl, rfl, rfl, rfl, rfl, rfl, rfl⟩

/-- Claim C9: the close sub-status constants of `WorkflowExecution`; the
continued-as-new constant holds the string
"CLOSE_STATUS_CONTINUED_AS_NEW", which is outside the claimed legal set. -/
theorem close_status_constant_values :
    WorkflowExecution.CLOSE_STATUS_COMPLETED = "COMPLETED" ∧
    WorkflowExecution.CLOSE_STATUS_FAILED = "FAILED" ∧
    WorkflowExecution.CLOSE_STATUS_CANCELED = "CANCELED" ∧
    WorkflowExecution.CLOSE_STATUS_TERMINATED = "TERMINATED" ∧
    WorkflowExecution.CLOSE_TIMED_OUT = "TIMED_OUT" ∧
    WorkflowExecution.CLOSE_STATUS_CONTINUED_AS_NEW =
      "CLOSE_STATUS_CONTINUED_AS_NEW" ∧
    WorkflowExecution.CLOSE_STATUS_CONTINUED_AS_NEW ∉
      (["COMPLETED", "FAILED", "CANCELED", "TERMINATED", "CONTINUED_AS_NEW",
        "TIMED_OUT"] : List String) := by
  refine ⟨rfl, rfl, rfl, rfl, rfl, rfl, by decide⟩

/-- Claim C10: `WorkflowExecution` applies no validation to
`child_policy` — construction and plain assignment store any value
verbatim and read it back unchanged. -/
theorem execution_child_policy_no_validation (dom : Domain)
    (wtype wid : String) (rid : Option String) (st : String)
    (tl v eto inp : Option String) (tags : Option (List String))
    (dtt : Option String) (we : WorkflowExecution) :
    (WorkflowExecution.init dom wtype wid rid st tl v eto inp tags
      dtt).child_policy = v ∧
    (we.set_child_policy v).child_policy = v :=
  ⟨rfl, rfl⟩
